import Mathlib

/-!
Shallow embedding of `src/documentation/conf.py`, a configuration module for a
documentation-generation pipeline.  The module

* registers three warning-suppression rules via `warnings.filterwarnings`
  (lines 5, 8, 9),
* defines a logging filter class `ImageNotFoundFilter` whose `filter` method
  drops log records whose rendered message contains the substring
  "was not found in XML_OUTPUT" (lines 12-17), and installs it on the root
  logger (line 20),
* declares the constants `DOXYFILE` (line 22) and `LINKS_NAVBAR1`
  (lines 24-27).

Python membership `pat in s` on strings is substring containment; we model it
as list-infix containment on the character lists of the strings.  The
`warnings.filterwarnings` patterns are regular expressions that CPython
compiles with `re.IGNORECASE` and tests with `re.match`: the match is anchored
at the start (but need not consume the whole text), and the dot of a leading
".*" does not match a newline.  The two registered patterns,
".*Testing an element\x27s truth value.*" and ".*was not found in XML_OUTPUT",
therefore match a text exactly when it contains the literal pattern text,
case-insensitively, at an occurrence preceded only by non-newline characters;
a text whose only occurrence lies after a newline is NOT matched.  The
embedding `reMatchDotStar` implements exactly that; the regex-engine case
lowering is modeled by ASCII lowercasing, which is exact on the ASCII pattern
texts registered here.

`record.getMessage()` renders `msg % args`, which raises `TypeError` when the
arguments do not fit the format string; `RawLogRecord` models the unrendered
record and `RawLogRecord.getMessage` the fallible rendering, while `LogRecord`
carries an already rendered message for the properties that condition on the
rendered text.
-/

/-- Python substring containment: `pat in s`. -/
def strContains (s pat : String) : Bool :=
  decide (pat.data <:+: s.data)

/-- Model of a `logging.LogRecord` as seen by `ImageNotFoundFilter.filter`:
the method only inspects `record.getMessage()`, the rendered message text;
the other attributes (logger name, numeric level) are carried along to state
properties that quantify over them. -/
structure LogRecord where
  name : String
  levelno : Nat
  message : String
deriving DecidableEq

/-- `record.getMessage()`: the rendered message text of the record. -/
def LogRecord.getMessage (r : LogRecord) : String := r.message

/-- The substring tested by the logging filter (conf.py line 15). -/
def imageNotFoundPattern : String := "was not found in XML_OUTPUT"

/-- Embedding of `ImageNotFoundFilter.filter` (conf.py lines 13-17):
return `False` when the rendered message contains
"was not found in XML_OUTPUT", `True` otherwise. -/
def ImageNotFoundFilter.filter (r : LogRecord) : Bool :=
  if strContains r.getMessage imageNotFoundPattern then false else true

/-- The effect of a logging filter on a stream of records: a record appears in
the output exactly when the filter predicate returns `True` on it. -/
def filterStream (p : LogRecord → Bool) (rs : List LogRecord) : List LogRecord :=
  rs.filter p

/-- A segment of an unrendered format string: a run of literal text or a %s
conversion. -/
inductive MsgPart where
  | lit (s : String)
  | percentS
deriving DecidableEq

/-- An unrendered `logging.LogRecord`: the format string `msg` (split into
literal runs and %s conversions) and the argument tuple `args`. -/
structure RawLogRecord where
  name : String
  levelno : Nat
  msg : List MsgPart
  args : List String
deriving DecidableEq

/-- The text of a format string with no formatting applied: %s conversions
stay as the literal two characters "%s". -/
def renderPlain : List MsgPart → String
  | [] => ""
  | .lit s :: ps => s ++ renderPlain ps
  | .percentS :: ps => "%s" ++ renderPlain ps

/-- `msg % args`: one argument is substituted per conversion; `none` models
the TypeError raised when arguments are left over ("not all arguments
converted") or run out ("not enough arguments"). -/
def formatParts : List MsgPart → List String → Option String
  | [], [] => some ""
  | [], _ :: _ => none
  | .lit s :: ps, as => (formatParts ps as).map (fun t => s ++ t)
  | .percentS :: _, [] => none
  | .percentS :: ps, a :: as => (formatParts ps as).map (fun t => a ++ t)

/-- `record.getMessage()` on an unrendered record: when `args` is empty no
formatting is applied (the format string is returned as is); otherwise
`msg % args`, whose TypeError is modeled as `none`. -/
def RawLogRecord.getMessage (r : RawLogRecord) : Option String :=
  if r.args.isEmpty then some (renderPlain r.msg) else formatParts r.msg r.args

/-- `ImageNotFoundFilter.filter` called on an unrendered record: it first
evaluates `record.getMessage()`, and an exception raised there propagates out
of `filter` (the `none` case); on success the verdict is the substring test of
conf.py line 15. -/
def ImageNotFoundFilter.filterRaw (r : RawLogRecord) : Option Bool :=
  r.getMessage.map (fun m => if strContains m imageNotFoundPattern then false else true)

/-- The case lowering the regex engine applies under `re.IGNORECASE`, modeled
by ASCII lowercasing (exact on the ASCII pattern texts registered here). -/
def foldChar (c : Char) : Char := c.toLower

/-- Case-insensitive character comparison under `re.IGNORECASE`. -/
def charIEq (c d : Char) : Bool := foldChar c == foldChar d

/-- Case-insensitive test that the pattern characters match the front of the
text. -/
def iIsPrefixOf : List Char → List Char → Bool
  | [], _ => true
  | _ :: _, [] => false
  | c :: cs, d :: ds => charIEq c d && iIsPrefixOf cs ds

/-- Matching loop for `re.match` of a pattern ".*P" or ".*P.*": the leading
".*" consumes a run of characters none of which is a newline, then P must
match at that position; `re.match` does not require consuming the whole text,
so a trailing ".*" adds nothing. -/
def reMatchAux (pat : List Char) : List Char → Bool
  | [] => iIsPrefixOf pat []
  | d :: ds => iIsPrefixOf pat (d :: ds) || (d != '\n' && reMatchAux pat ds)

/-- `re.match` of the registered ".*"-patterns compiled with `re.IGNORECASE`:
true iff the text contains the literal pattern text, case-insensitively, at an
occurrence preceded only by non-newline characters. -/
def reMatchDotStar (text pat : String) : Bool := reMatchAux pat.data text.data

/-- The warning categories named in conf.py, plus further standard flat
categories (all direct subclasses of `Warning`, none a subclass of another,
so category matching between them is equality). -/
inductive WarningCategory where
  | deprecationWarning
  | runtimeWarning
  | userWarning
  | futureWarning
  | syntaxWarning
deriving DecidableEq

/-- Model of a Python warning: a category and a message text. -/
structure PyWarning where
  category : WarningCategory
  message : String
deriving DecidableEq

/-- A rule registered by `warnings.filterwarnings("ignore", ...)`: the literal
text P of its ".*P"- or ".*P.*"-shaped regex, and the category it is
restricted to. -/
structure WarningFilterRule where
  pattern : String
  category : WarningCategory
deriving DecidableEq

/-- The literal text of the regex registered at conf.py line 5. -/
def truthValueText : String := "Testing an element\x27s truth value"

/-- conf.py line 5: suppress `DeprecationWarning`s whose message matches
".*Testing an element\x27s truth value.*". -/
def truthValueDeprecationRule : WarningFilterRule :=
  ⟨truthValueText, .deprecationWarning⟩

/-- conf.py line 8: suppress `RuntimeWarning`s whose message matches
".*was not found in XML_OUTPUT". -/
def xmlOutputRuntimeRule : WarningFilterRule :=
  ⟨imageNotFoundPattern, .runtimeWarning⟩

/-- conf.py line 9: suppress `UserWarning`s whose message matches
".*was not found in XML_OUTPUT". -/
def xmlOutputUserRule : WarningFilterRule :=
  ⟨imageNotFoundPattern, .userWarning⟩

/-- The list of suppression rules registered by the module (conf.py
lines 5-9). -/
def registeredWarningFilters : List WarningFilterRule :=
  [truthValueDeprecationRule, xmlOutputRuntimeRule, xmlOutputUserRule]

/-- A rule matches a warning when the categories agree (Python: `issubclass`,
here equality since the modelled categories are flat siblings) and `re.match`
of the rule regex, compiled with `re.IGNORECASE`, succeeds on the warning
text. -/
def WarningFilterRule.matches (rule : WarningFilterRule) (w : PyWarning) : Bool :=
  (w.category == rule.category) && reMatchDotStar w.message rule.pattern

/-- A warning is suppressed when some registered "ignore" rule matches it. -/
def warningSuppressed (w : PyWarning) : Bool :=
  registeredWarningFilters.any (fun rule => rule.matches w)

/-- conf.py line 22. -/
def DOXYFILE : String := "Doxyfile"

/-- conf.py lines 24-27: the declared navigation structure, an ordered list of
(optional label, target, children) entries. -/
def LINKS_NAVBAR1 : List (Option String × String × List (Option String × String)) :=
  [ (none, "pages", [(none, "about")]),
    (none, "namespaces", []) ]

/-- Case-insensitive comparison is reflexive. -/
theorem charIEq_refl (c : Char) : charIEq c c = true := by
  simp [charIEq]

/-- A pattern case-insensitively prefixes any text starting with it. -/
theorem iIsPrefixOf_append (p rest : List Char) : iIsPrefixOf p (p ++ rest) = true := by
  induction p with
  | nil => rfl
  | cons c cs ih => simp [iIsPrefixOf, charIEq_refl, ih]

/-- The match loop succeeds when the pattern already prefixes the text. -/
theorem reMatchAux_of_prefix (p rest : List Char) (h : iIsPrefixOf p rest = true) :
    reMatchAux p rest = true := by
  cases rest with
  | nil => exact h
  | cons d ds => simp [reMatchAux, h]

/-- The match loop succeeds when the pattern prefixes the text after a run of
non-newline characters, which the leading ".*" consumes. -/
theorem reMatchAux_append (p a rest : List Char) (ha : '\n' ∉ a)
    (h : iIsPrefixOf p rest = true) : reMatchAux p (a ++ rest) = true := by
  induction a with
  | nil => exact reMatchAux_of_prefix p rest h
  | cons c cs ih =>
      have hc : c ≠ '\n' := fun hceq => ha (hceq ▸ List.mem_cons_self c cs)
      have hrec := ih (fun hm => ha (List.mem_cons_of_mem c hm))
      simp [reMatchAux, hrec, hc]

section Claims

/-- C1: every log record whose rendered message contains
"was not found in XML_OUTPUT" is rejected by `ImageNotFoundFilter.filter`
and hence absent from any filtered output stream. -/
theorem C1_log_filter_suppresses (r : LogRecord)
    (h : strContains r.getMessage imageNotFoundPattern = true)
    (rs : List LogRecord) :
    ImageNotFoundFilter.filter r = false ∧
      r ∉ filterStream ImageNotFoundFilter.filter rs := by
  have hf : ImageNotFoundFilter.filter r = false := by
    simp [ImageNotFoundFilter.filter, h]
  refine ⟨hf, ?_⟩
  intro hmem
  have := (List.mem_filter.mp hmem).2
  rw [hf] at this
  exact Bool.false_ne_true this

/-- Witness for C1 at the concrete record with message
"Image foo.png was not found in XML_OUTPUT". -/
theorem C1_log_filter_suppresses_witness :
    ImageNotFoundFilter.filter ⟨"root", 30, "Image foo.png was not found in XML_OUTPUT"⟩ = false ∧
      (⟨"root", 30, "Image foo.png was not found in XML_OUTPUT"⟩ : LogRecord) ∉
        filterStream ImageNotFoundFilter.filter
          [⟨"root", 30, "Image foo.png was not found in XML_OUTPUT"⟩] :=
  C1_log_filter_suppresses ⟨"root", 30, "Image foo.png was not found in XML_OUTPUT"⟩
    (by decide) [⟨"root", 30, "Image foo.png was not found in XML_OUTPUT"⟩]

/-- C2: every log record whose rendered message does not contain
"was not found in XML_OUTPUT" is accepted by `ImageNotFoundFilter.filter`
and passes through every filtered stream it is a member of. -/
theorem C2_log_filter_passes (r : LogRecord)
    (h : strContains r.getMessage imageNotFoundPattern = false) :
    ImageNotFoundFilter.filter r = true ∧
      ∀ rs : List LogRecord, r ∈ rs → r ∈ filterStream ImageNotFoundFilter.filter rs := by
  have hf : ImageNotFoundFilter.filter r = true := by
    simp [ImageNotFoundFilter.filter, h]
  exact ⟨hf, fun rs hmem => List.mem_filter.mpr ⟨hmem, hf⟩⟩

/-- Witness for C2 at the concrete record with message
"Unrelated build note: 3 files processed". -/
theorem C2_log_filter_passes_witness :
    ImageNotFoundFilter.filter ⟨"root", 20, "Unrelated build note: 3 files processed"⟩ = true ∧
      ∀ rs : List LogRecord,
        (⟨"root", 20, "Unrelated build note: 3 files processed"⟩ : LogRecord) ∈ rs →
          (⟨"root", 20, "Unrelated build note: 3 files processed"⟩ : LogRecord) ∈
            filterStream ImageNotFoundFilter.filter rs :=
  C2_log_filter_passes ⟨"root", 20, "Unrelated build note: 3 files processed"⟩ (by decide)

/-- C3 counterexample: a `DeprecationWarning` whose message contains the
truth-value text only after a newline is NOT suppressed, because the leading
".*" of the registered regex cannot cross a newline under `re.match`; so the
claim as stated, quantified over all messages containing the text, fails. -/
theorem C3_newline_counterexample :
    strContains "foo\nTesting an element\x27s truth value" truthValueText = true ∧
      warningSuppressed
        ⟨.deprecationWarning, "foo\nTesting an element\x27s truth value"⟩ = false := by
  decide

/-- C3 (amended): every warning of category `DeprecationWarning` whose message
contains the text "Testing an element s truth value" at an occurrence preceded
only by non-newline characters is matched by the registered rule and
suppressed. -/
theorem C3_deprecation_suppressed (w : PyWarning)
    (hc : w.category = .deprecationWarning)
    (a b : List Char) (ha : '\n' ∉ a)
    (hm : w.message.data = a ++ truthValueText.data ++ b) :
    warningSuppressed w = true := by
  have hmatch : reMatchDotStar w.message truthValueText = true := by
    unfold reMatchDotStar
    rw [hm, List.append_assoc]
    exact reMatchAux_append truthValueText.data a (truthValueText.data ++ b) ha
      (iIsPrefixOf_append _ _)
  simp [warningSuppressed, registeredWarningFilters, WarningFilterRule.matches,
    truthValueDeprecationRule, hc, hmatch]

/-- Witness for C3 at the concrete deprecation message of Scenario 1. -/
theorem C3_deprecation_suppressed_witness :
    warningSuppressed
      ⟨.deprecationWarning,
        "DeprecationWarning: Testing an element\x27s truth value..."⟩ = true :=
  C3_deprecation_suppressed
    ⟨.deprecationWarning, "DeprecationWarning: Testing an element\x27s truth value..."⟩
    rfl ("DeprecationWarning: ".data) ("...".data) (by decide) (by decide)

/-- C4 counterexample: a `RuntimeWarning` whose message contains
"was not found in XML_OUTPUT" only after a newline is NOT suppressed, because
the leading ".*" of the registered regex cannot cross a newline under
`re.match`; so the claim as stated fails. -/
theorem C4_newline_counterexample :
    strContains "note:\nImage bar.png was not found in XML_OUTPUT"
        imageNotFoundPattern = true ∧
      warningSuppressed
        ⟨.runtimeWarning, "note:\nImage bar.png was not found in XML_OUTPUT"⟩ = false := by
  decide

/-- C4 (amended): every warning of category `RuntimeWarning` whose message
contains "was not found in XML_OUTPUT" at an occurrence preceded only by
non-newline characters is matched by the registered rule and suppressed. -/
theorem C4_runtime_suppressed (w : PyWarning)
    (hc : w.category = .runtimeWarning)
    (a b : List Char) (ha : '\n' ∉ a)
    (hm : w.message.data = a ++ imageNotFoundPattern.data ++ b) :
    warningSuppressed w = true := by
  have hmatch : reMatchDotStar w.message imageNotFoundPattern = true := by
    unfold reMatchDotStar
    rw [hm, List.append_assoc]
    exact reMatchAux_append imageNotFoundPattern.data a (imageNotFoundPattern.data ++ b) ha
      (iIsPrefixOf_append _ _)
  simp [warningSuppressed, registeredWarningFilters, WarningFilterRule.matches,
    xmlOutputRuntimeRule, hc, hmatch]

/-- Witness for C4 at the concrete warning
"Image foo.png was not found in XML_OUTPUT". -/
theorem C4_runtime_suppressed_witness :
    warningSuppressed
      ⟨.runtimeWarning, "Image foo.png was not found in XML_OUTPUT"⟩ = true :=
  C4_runtime_suppressed
    ⟨.runtimeWarning, "Image foo.png was not found in XML_OUTPUT"⟩ rfl
    ("Image foo.png ".data) ([]) (by decide) (by decide)

/-- C5: `LINKS_NAVBAR1` is exactly the ordered two-element sequence with first
group (none, "pages") holding the single child (none, "about") and second
group (none, "namespaces") holding no children. -/
theorem C5_navbar_structure :
    LINKS_NAVBAR1 =
      [ (none, "pages", [(none, "about")]),
        (none, "namespaces", ([] : List (Option String × String))) ] := rfl

/-- C6: filtering a stream through the `ImageNotFoundFilter` predicate twice
yields the same stream as filtering once. -/
theorem C6_filter_idempotent (rs : List LogRecord) :
    filterStream ImageNotFoundFilter.filter
        (filterStream ImageNotFoundFilter.filter rs) =
      filterStream ImageNotFoundFilter.filter rs := by
  simp [filterStream, List.filter_filter]

/-- C7 counterexample: `filter` is not exception-free on every log record: on
a record whose args do not fit its format string, `record.getMessage()` — that
is, `msg % args` — raises TypeError, and the exception propagates out of
`filter` (the `none` outcome) instead of a Boolean verdict. -/
theorem C7_raises_counterexample :
    ImageNotFoundFilter.filterRaw ⟨"root", 30, [.lit "hello"], ["extra"]⟩ = none := rfl

/-- C7 (amended): on every log record whose message renders successfully,
`filter` returns a Boolean and nothing else: the outcome is `some` of the pure
substring verdict on the rendered message, so the only failure mode is the
TypeError of the `msg % args` rendering inside `getMessage`. -/
theorem C7_filter_total (r : RawLogRecord) (m : String)
    (h : r.getMessage = some m) :
    ImageNotFoundFilter.filterRaw r =
      some (ImageNotFoundFilter.filter ⟨r.name, r.levelno, m⟩) := by
  simp [ImageNotFoundFilter.filterRaw, h, ImageNotFoundFilter.filter, LogRecord.getMessage]

/-- Witness for C7 at a well-formed record with one %s conversion and one
argument. -/
theorem C7_filter_total_witness :
    ImageNotFoundFilter.filterRaw
        ⟨"root", 30, [.lit "Image ", .percentS, .lit " was not found in XML_OUTPUT"],
          ["foo.png"]⟩ =
      some (ImageNotFoundFilter.filter
        ⟨"root", 30, "Image foo.png was not found in XML_OUTPUT"⟩) :=
  C7_filter_total
    ⟨"root", 30, [.lit "Image ", .percentS, .lit " was not found in XML_OUTPUT"],
      ["foo.png"]⟩
    "Image foo.png was not found in XML_OUTPUT" (by decide)

/-- C8: the configuration value naming the input project file is the string
"Doxyfile". -/
theorem C8_doxyfile_value : DOXYFILE = "Doxyfile" := rfl

/-- C9: the decision of `ImageNotFoundFilter.filter` depends only on the
rendered message: two records with equal `getMessage` results get the same
verdict, whatever their logger name or level. -/
theorem C9_filter_depends_only_on_message (r₁ r₂ : LogRecord)
    (h : r₁.getMessage = r₂.getMessage) :
    ImageNotFoundFilter.filter r₁ = ImageNotFoundFilter.filter r₂ := by
  simp [ImageNotFoundFilter.filter, h]

/-- Witness for C9: two records that differ in name and level but share a
message get the same verdict. -/
theorem C9_filter_depends_only_on_message_witness :
    ImageNotFoundFilter.filter ⟨"sphinx", 40, "Image a.png was not found in XML_OUTPUT"⟩ =
      ImageNotFoundFilter.filter ⟨"root", 10, "Image a.png was not found in XML_OUTPUT"⟩ :=
  C9_filter_depends_only_on_message
    ⟨"sphinx", 40, "Image a.png was not found in XML_OUTPUT"⟩
    ⟨"root", 10, "Image a.png was not found in XML_OUTPUT"⟩ rfl

/-- C10: the rule for the element truth-value text is registered for the
category `DeprecationWarning` only: it does not match a warning of any other
category, whatever its message. -/
theorem C10_truth_value_rule_category_specific (w : PyWarning)
    (h : w.category ≠ .deprecationWarning) :
    truthValueDeprecationRule.category = .deprecationWarning ∧
      truthValueDeprecationRule.matches w = false := by
  refine ⟨rfl, ?_⟩
  simp [WarningFilterRule.matches, truthValueDeprecationRule, h]

/-- Witness for C10: a `UserWarning` containing the pattern text is not
matched by the deprecation rule. -/
theorem C10_truth_value_rule_category_specific_witness :
    truthValueDeprecationRule.category = .deprecationWarning ∧
      truthValueDeprecationRule.matches
        ⟨.userWarning, "Testing an element\x27s truth value is odd"⟩ = false :=
  C10_truth_value_rule_category_specific
    ⟨.userWarning, "Testing an element\x27s truth value is odd"⟩ (by decide)

end Claims
